import Mathlib

/-!
Verification of the daily aggregation and windowed-rate engine of the
SRAG surveillance report generator.

Shallow embedding of:
  - src/preprocessing/generate_aux_df.py
      (generate_df_daily_info, filter_df_srag_for_vacc_label,
       label_vaccination_status / classify_row)
  - src/metrics/calc_metrics.py
      (calc_case_var_rate_by_period, calc_rate_by_period)
  - src/charts/create_charts.py
      (the monthly-bucket flag computation, lines 97-120)

Modelling conventions:
  - A pandas DataFrame is a list of records; a nullable column value is an
    Option (none = NaN / NaT).
  - Dates are integer day ordinals (pd.Timedelta(days=k) = adding k).
  - pandas Series.sum skips NaN, so a sum of an Option-column is the sum
    of its non-null entries (optSum).
  - pandas Series.sum of an integer column returns a numpy int64 scalar;
    true division of numpy int64 scalars follows IEEE-754 semantics
    (x/0 = +-inf for x /= 0, 0/0 = nan, with a RuntimeWarning, not an
    exception).  This is embedded by the PyFloat type and npDivInt.
  - Python round(x, 2) is embedded as decimal round-half-to-even at two
    decimal digits over the rationals (roundTo2); round(inf, 2) = inf and
    round(nan, 2) = nan, which pyRound2 reproduces.
  - groupby(key) drops rows whose key is null; left merges leave NaN
    (none) where the right table has no row for the key; drop_duplicates
    keeps the first occurrence of each (key, value) pair and treats NaN
    as equal to NaN (dedupFirst over Option values does the same).
-/

namespace Srag

/-- Sum of the non-null entries of an Option-valued column
(pandas Series.sum with its default skipna behaviour). -/
def optSum (l : List (Option Nat)) : Nat :=
  (l.filterMap id).sum

/-- Maximum of a list of integer day ordinals (pandas Series.max, which
skips NaT; the empty case never feeds a comparison downstream, every
filter over an empty table is empty). -/
def maxD : List Int → Int
  | [] => 0
  | x :: xs => xs.foldl max x

/-- Keep the first occurrence of each element, dropping later duplicates
(pandas drop_duplicates semantics); seen accumulates elements already
emitted. -/
def dedupFirstAux [DecidableEq α] (seen : List α) : List α → List α
  | [] => []
  | x :: xs =>
      if x ∈ seen then dedupFirstAux seen xs
      else x :: dedupFirstAux (x :: seen) xs

/-- drop_duplicates on a list. -/
def dedupFirst [DecidableEq α] (l : List α) : List α :=
  dedupFirstAux [] l

/-- Round a rational to the nearest integer, ties to even
(the rounding mode of Python round). -/
def roundHalfEven (q : ℚ) : ℤ :=
  let n : ℤ := ⌊q⌋
  let frac : ℚ := q - (n : ℚ)
  if frac < 1/2 then n
  else if 1/2 < frac then n + 1
  else if n % 2 = 0 then n else n + 1

/-- Python round(x, 2): round to two decimal digits, ties to even. -/
def roundTo2 (q : ℚ) : ℚ :=
  (roundHalfEven (q * 100) : ℚ) / 100

/-- Result of a Python floating computation: an exact rational value or
one of the IEEE special values produced by dividing by zero. -/
inductive PyFloat where
  | val (q : ℚ)
  | posInf
  | negInf
  | nan
  deriving DecidableEq, Repr

/-- True division of two numpy int64 scalars: IEEE semantics, a zero
denominator yields a signed infinity or nan, never an exception. -/
def npDivInt (a b : ℤ) : PyFloat :=
  if b = 0 then
    if 0 < a then .posInf else if a < 0 then .negInf else .nan
  else .val ((a : ℚ) / (b : ℚ))

/-- Multiplication of a Python float by the positive literal 100. -/
def pyMul100 : PyFloat → PyFloat
  | .val q => .val (q * 100)
  | .posInf => .posInf
  | .negInf => .negInf
  | .nan => .nan

/-- Python round(x, 2) on a float: finite values are rounded, round of an
infinity or nan with an ndigits argument returns it unchanged. -/
def pyRound2 : PyFloat → PyFloat
  | .val q => .val (roundTo2 q)
  | .posInf => .posInf
  | .negInf => .negInf
  | .nan => .nan

/-- One raw SRAG case row (one row of df_srag).  DT_NOTIFIC is NaT-able;
NU_NOTIFIC is the per-case notification identifier, a required opaque id
in the data model, hence not nullable; the coded columns are nullable
floats in pandas, embedded as Option Nat.  NU_CASOS is the column that
generate_df_daily_info writes onto the input table (none before the
call). -/
structure CaseRow where
  dt : Option Int
  nuNotific : Nat
  evolucao : Option Nat
  uti : Option Nat
  vacina : Option Nat
  vacinaCov : Option Nat
  classiFin : Option Nat
  nuCasos : Option Nat := none
  deriving DecidableEq, Repr

/-- One row of the derived daily table df_daily_info. -/
structure DailyRecord where
  dt : Option Int
  casos : Option Nat
  obitos : Option Nat
  utis : Option Nat
  vacinados : Option Nat
  deriving DecidableEq, Repr

/-- Date filter of a pandas comparison DT_NOTIFIC-against-bound on the
raw case table: a null (NaT) date compares false and is dropped. -/
def caseDatePred (P : Int → Bool) (r : CaseRow) : Bool :=
  r.dt.elim false P

/-- Date filter of a pandas comparison DT_NOTIFIC-against-bound on the
daily table: a null (NaT) date compares false and is dropped. -/
def datePred (P : Int → Bool) (r : DailyRecord) : Bool :=
  r.dt.elim false P

/-- classify_row of generate_aux_df.py (lines 185-209): vaccination label
of one case from CLASSI_FIN, VACINA, VACINA_COV; pandas == against the
int literals 1 and 5 is false on NaN, so a null code falls to the else
branches. -/
def classify_row (classiFin vacina vacinaCov : Option Nat) : Nat :=
  if classiFin = some 1 then
    if vacina = some 1 then 1 else 0
  else if classiFin = some 5 then
    if vacinaCov = some 1 then 1 else 0
  else
    if vacina = some 1 ∧ vacinaCov = some 1 then 1 else 0

/-- filter_df_srag_for_vacc_label (lines 114-142): keep the rows of the
last 30 days (DT_NOTIFIC >= max - 29); a NaT date compares false. -/
def filter_df_srag_for_vacc_label (df : List CaseRow) : List CaseRow :=
  let filter_start_date := maxD (df.filterMap (·.dt)) - 29
  df.filter (caseDatePred (fun d => decide (filter_start_date ≤ d)))

/-- Line 47-50 of generate_aux_df.py: write the NU_CASOS column onto the
input table; groupby("DT_NOTIFIC") drops NaT keys, so rows with a null
date receive NaN; within a date group, count() of NU_NOTIFIC equals the
group size because the identifier is never null. -/
def addNuCasos (df : List CaseRow) : List CaseRow :=
  df.map (fun r =>
    { r with nuCasos :=
        r.dt.map (fun d => df.countP (fun c => decide (c.dt = some d))) })

/-- Daily death count (lines 59-65): rows with EVOLUCAO == 2, grouped by
date; count() of the filtered column equals the group size. -/
def deathCount (df : List CaseRow) (d : Int) : Nat :=
  (df.filter (fun r => decide (r.evolucao = some 2))).countP
    (fun r => decide (r.dt = some d))

/-- Daily ICU admission count (lines 68-74): rows with UTI == 1. -/
def utiCount (df : List CaseRow) (d : Int) : Nat :=
  (df.filter (fun r => decide (r.uti = some 1))).countP
    (fun r => decide (r.dt = some d))

/-- Daily vaccinated count (lines 80-94): the 30-day filtered table is
labelled by classify_row and the rows with VACINADO == 1 are counted per
date. -/
def vacCount (df : List CaseRow) (d : Int) : Nat :=
  ((filter_df_srag_for_vacc_label df).filter
      (fun r => decide (classify_row r.classiFin r.vacina r.vacinaCov = 1))).countP
    (fun r => decide (r.dt = some d))

/-- Left-merge of a per-date sub-count onto the daily table: a date with
no row in the sub-aggregation (count zero) gets NaN, never the number
zero. -/
def mergeCnt (c : Nat) : Option Nat :=
  if c = 0 then none else some c

/-- Lines 53-109: df_daily_info built from the mutated table: the
(DT_NOTIFIC, NU_CASOS) pairs after drop_duplicates, with the death, ICU
and vaccination sub-counts left-merged on DT_NOTIFIC (a null date matches
no group, hence none). -/
def buildDaily (df : List CaseRow) : List DailyRecord :=
  (dedupFirst (df.map (fun r => (r.dt, r.nuCasos)))).map (fun p =>
    { dt := p.1
      casos := p.2
      obitos := match p.1 with
        | some d => mergeCnt (deathCount df d)
        | none => none
      utis := match p.1 with
        | some d => mergeCnt (utiCount df d)
        | none => none
      vacinados := match p.1 with
        | some d => mergeCnt (vacCount df d)
        | none => none })

/-- generate_df_daily_info (lines 25-111).  The first component is the
input table as the caller sees it after the call (the function assigns
the NU_CASOS column in place on df_srag); the second is the returned
df_daily_info. -/
def generate_df_daily_info (df : List CaseRow) :
    List CaseRow × List DailyRecord :=
  let df1 := addNuCasos df
  (df1, buildDaily df1)

/-- Window of calc_case_var_rate_by_period (lines 36-42): rows of the
last 2*period_days calendar days ending at the max date. -/
def case_window (df : List DailyRecord) (p : Nat) : List DailyRecord :=
  let window_start_date := maxD (df.filterMap (·.dt)) - (2 * (p : Int) - 1)
  df.filter (datePred (fun d => decide (window_start_date ≤ d)))

/-- Previous period (line 45): the first period_days days of the window. -/
def prev_period (df : List DailyRecord) (p : Nat) : List DailyRecord :=
  let window_start_date := maxD (df.filterMap (·.dt)) - (2 * (p : Int) - 1)
  (case_window df p).filter
    (datePred (fun d => decide (d ≤ window_start_date + ((p : Int) - 1))))

/-- Current period (line 49): the rows of the window after the previous
period. -/
def curr_period (df : List DailyRecord) (p : Nat) : List DailyRecord :=
  let window_start_date := maxD (df.filterMap (·.dt)) - (2 * (p : Int) - 1)
  (case_window df p).filter
    (datePred (fun d => decide (window_start_date + ((p : Int) - 1) < d)))

/-- Line 46. -/
def total_prev_cases (df : List DailyRecord) (p : Nat) : Nat :=
  optSum ((prev_period df p).map (·.casos))

/-- Line 50. -/
def total_curr_cases (df : List DailyRecord) (p : Nat) : Nat :=
  optSum ((curr_period df p).map (·.casos))

/-- calc_case_var_rate_by_period (lines 3-56): percentage variation of
the case count between the two halves of the trailing 2*period_days-day
window, rounded to 2 decimals; the division is numpy int64 scalar
division. -/
def calc_case_var_rate_by_period (df : List DailyRecord) (p : Nat) : PyFloat :=
  pyRound2 (pyMul100 (npDivInt
    ((total_curr_cases df p : ℤ) - (total_prev_cases df p : ℤ))
    (total_prev_cases df p : ℤ)))

/-- Window of calc_rate_by_period (lines 96-102): rows of the last
period_days calendar days ending at the max date. -/
def period_window (df : List DailyRecord) (p : Nat) : List DailyRecord :=
  let start_date := maxD (df.filterMap (·.dt)) - ((p : Int) - 1)
  df.filter (datePred (fun d => decide (start_date ≤ d)))

/-- calc_rate_by_period (lines 58-116): a column is selected by name, so
the embedding takes the two columns as record selectors; the sums skip
NaN; a zero denominator sum returns None (none) before any division. -/
def calc_rate_by_period (df : List DailyRecord)
    (numSel denomSel : DailyRecord → Option Nat) (p : Nat) : Option ℚ :=
  let numerator := optSum ((period_window df p).map numSel)
  let denominator := optSum ((period_window df p).map denomSel)
  if denominator = 0 then none
  else some (roundTo2 ((numerator : ℚ) / (denominator : ℚ) * 100))

/-- A calendar date, for the monthly-bucket logic of create_charts.py. -/
structure Date where
  year : Nat
  month : Nat
  day : Nat
  deriving DecidableEq, Repr

/-- Gregorian leap-year test. -/
def isLeap (y : Nat) : Bool :=
  (y % 4 = 0 && y % 100 ≠ 0) || y % 400 = 0

/-- Number of days of a calendar month. -/
def daysInMonth (y m : Nat) : Nat :=
  if m = 2 then (if isLeap y then 29 else 28)
  else if m = 4 ∨ m = 6 ∨ m = 9 ∨ m = 11 then 30
  else 31

/-- Whether a date is the last calendar day of its month. -/
def isLastDayOfMonth (d : Date) : Bool :=
  d.day = daysInMonth d.year d.month

/-- Chronological key of a date. -/
def dateKey (d : Date) : Nat :=
  d.year * 10000 + d.month * 100 + d.day

/-- Latest date of a list (pandas Series.max over DT_NOTIFIC). -/
def maxDate : List Date → Option Date
  | [] => none
  | x :: xs => some (xs.foldl (fun a b => if dateKey a < dateKey b then b else a) x)

/-- pandas resample("ME") labels a bucket with the last calendar day of
its month, so the label of the bucket holding the max date is the
month-end of the max date. -/
def monthEnd (d : Date) : Date :=
  { year := d.year, month := d.month, day := daysInMonth d.year d.month }

/-- Lines 109-110 of create_charts.py: the boolean flag deciding whether
the last monthly bucket is marked and suffixed "(until DD/MM)" (named
after the last bucket in the source): it compares the month and year of
the last bucket's resample label with the month and year of the max
date. -/
def lastBucketMarked (dates : List Date) : Bool :=
  match maxDate dates with
  | some last_date =>
      decide ((monthEnd last_date).month = last_date.month) &&
      decide ((monthEnd last_date).year = last_date.year)
  | none => false

/-- Sum of the case counts over the days of the previous period as the
spec words it: the first period_days days of the 2*period_days-day window
ending at the max date. -/
def specPrevSum (df : List DailyRecord) (p : Nat) : Nat :=
  let last := maxD (df.filterMap (·.dt))
  let ws := last - (2 * (p : Int) - 1)
  optSum ((df.filter (datePred (fun d =>
    decide (ws ≤ d ∧ d ≤ ws + ((p : Int) - 1))))).map (·.casos))

/-- Sum of the case counts over the days of the current period as the
spec words it: the last period_days days of the window, i.e. the days
from ws + period_days up to the max date inclusive. -/
def specCurrSum (df : List DailyRecord) (p : Nat) : Nat :=
  let last := maxD (df.filterMap (·.dt))
  let ws := last - (2 * (p : Int) - 1)
  optSum ((df.filter (datePred (fun d =>
    decide (ws + (p : Int) ≤ d ∧ d ≤ last)))).map (·.casos))

/-- Sum of a column over the trailing period_days-day window ending at
the max date inclusive, as the spec words it. -/
def specWinSum (df : List DailyRecord) (sel : DailyRecord → Option Nat)
    (p : Nat) : Nat :=
  let last := maxD (df.filterMap (·.dt))
  let start := last - ((p : Int) - 1)
  optSum ((df.filter (datePred (fun d =>
    decide (start ≤ d ∧ d ≤ last)))).map sel)

/-- The daily row determined by one (possibly null) input date: the shape
every row of df_daily_info has (proved below in daily_shape). -/
def rowOf (df : List CaseRow) (o : Option Int) : DailyRecord :=
  { dt := o
    casos := o.map (fun d => df.countP (fun c => decide (c.dt = some d)))
    obitos := match o with
      | some d => mergeCnt (deathCount df d)
      | none => none
    utis := match o with
      | some d => mergeCnt (utiCount df d)
      | none => none
    vacinados := match o with
      | some d => mergeCnt (vacCount df d)
      | none => none }

/-- Replace a missing daily case count by the number zero. -/
def fillCasosZero (r : DailyRecord) : DailyRecord :=
  { r with casos := some (r.casos.getD 0) }

/-- The concrete 14-day scenario of the spec: daily case counts
10,10,10,10,10,10,10,20,20,20,20,20,20,20. -/
def exC2Daily : List DailyRecord :=
  (List.range 14).map (fun i =>
    { dt := some (i : Int), casos := some (if i < 7 then 10 else 20),
      obitos := none, utis := none, vacinados := none })

/-- The concrete ratio scenario of the spec: 5 deaths over 100 cases on a
single day. -/
def exC3Daily : List DailyRecord :=
  [{ dt := some 0, casos := some 100, obitos := some 5, utis := none,
     vacinados := none }]

/-- A daily table whose previous 7-day period is empty (sum zero) while
the current period holds 140 cases. -/
def exC6Daily : List DailyRecord :=
  (List.range 7).map (fun i =>
    { dt := some ((i : Int) + 7), casos := some 20,
      obitos := none, utis := none, vacinados := none })

/-- A case table holding one record with a null notification date next to
one well-formed record. -/
def exC7Cases : List CaseRow :=
  [{ dt := none, nuNotific := 1, evolucao := some 2, uti := some 1,
     vacina := some 1, vacinaCov := some 1, classiFin := some 5 },
   { dt := some 10, nuNotific := 2, evolucao := some 1, uti := some 2,
     vacina := some 2, vacinaCov := some 2, classiFin := some 4 }]

/-- A non-empty case table with three records over two distinct non-null
dates. -/
def exC8Cases : List CaseRow :=
  [{ dt := some 1, nuNotific := 1, evolucao := some 2, uti := some 1,
     vacina := some 1, vacinaCov := some 1, classiFin := some 1 },
   { dt := some 1, nuNotific := 2, evolucao := some 1, uti := some 2,
     vacina := some 2, vacinaCov := some 2, classiFin := some 5 },
   { dt := some 2, nuNotific := 3, evolucao := some 9, uti := some 9,
     vacina := some 9, vacinaCov := some 9, classiFin := some 4 }]

/-- A one-record case table, for exhibiting the in-place write of the
NU_CASOS column. -/
def exC9Cases : List CaseRow :=
  [{ dt := some 0, nuNotific := 1, evolucao := none, uti := none,
     vacina := none, vacinaCov := none, classiFin := none }]

/-- A case table whose single date has no death, no ICU admission and no
vaccinated case. -/
def exC10Cases : List CaseRow :=
  [{ dt := some 0, nuNotific := 1, evolucao := some 1, uti := some 2,
     vacina := some 2, vacinaCov := some 2, classiFin := some 4 }]

section Lemmas

variable {α β : Type} [DecidableEq α] [DecidableEq β]

theorem optSum_eq_sum_getD (l : List (Option Nat)) :
    optSum l = (l.map (fun o => o.getD 0)).sum := by
  induction l with
  | nil => rfl
  | cons x xs ih =>
    cases x with
    | none => simpa [optSum, List.filterMap_cons] using ih
    | some a => simpa [optSum, List.filterMap_cons] using ih

theorem le_foldl_max (xs : List Int) (x : Int) :
    ∀ a : Int, (a = x ∨ a ∈ xs) → a ≤ xs.foldl max x := by
  induction xs generalizing x with
  | nil =>
    intro a ha
    rcases ha with h1 | h2
    · simp [h1]
    · simp at h2
  | cons y ys ih =>
    intro a ha
    rw [List.foldl_cons]
    have hstep : max x y ≤ ys.foldl max (max x y) :=
      ih (max x y) (max x y) (Or.inl rfl)
    rcases ha with h1 | h2
    · exact le_trans (h1 ▸ le_max_left x y) hstep
    · rcases List.mem_cons.mp h2 with h3 | h4
      · exact le_trans (h3 ▸ le_max_right x y) hstep
      · exact ih (max x y) a (Or.inr h4)

theorem le_maxD {l : List Int} {a : Int} (h : a ∈ l) : a ≤ maxD l := by
  match l with
  | x :: xs =>
    rw [maxD]
    rcases List.mem_cons.mp h with h1 | h2
    · exact le_foldl_max xs x a (Or.inl h1)
    · exact le_foldl_max xs x a (Or.inr h2)

theorem mem_of_mem_dedupFirstAux {seen l : List α} {a : α}
    (h : a ∈ dedupFirstAux seen l) : a ∈ l := by
  induction l generalizing seen with
  | nil => simp [dedupFirstAux] at h
  | cons x xs ih =>
    rw [dedupFirstAux] at h
    split at h
    · exact List.mem_cons.mpr (Or.inr (ih h))
    · rcases List.mem_cons.mp h with h1 | h2
      · exact List.mem_cons.mpr (Or.inl h1)
      · exact List.mem_cons.mpr (Or.inr (ih h2))

theorem not_mem_seen_of_mem_dedupFirstAux {seen l : List α} {a : α}
    (h : a ∈ dedupFirstAux seen l) : a ∉ seen := by
  induction l generalizing seen with
  | nil => simp [dedupFirstAux] at h
  | cons x xs ih =>
    rw [dedupFirstAux] at h
    split at h
    · exact ih h
    · rcases List.mem_cons.mp h with h1 | h2
      · subst h1; assumption
      · intro hs
        exact ih h2 (List.mem_cons.mpr (Or.inr hs))

theorem nodup_dedupFirstAux (seen l : List α) :
    (dedupFirstAux seen l).Nodup := by
  induction l generalizing seen with
  | nil => simp [dedupFirstAux]
  | cons x xs ih =>
    rw [dedupFirstAux]
    split
    · exact ih seen
    · refine List.nodup_cons.mpr ⟨?_, ih (x :: seen)⟩
      intro hx
      exact not_mem_seen_of_mem_dedupFirstAux hx (List.mem_cons_self _ _)

theorem mem_of_mem_dedupFirst {l : List α} {a : α}
    (h : a ∈ dedupFirst l) : a ∈ l :=
  mem_of_mem_dedupFirstAux h

theorem nodup_dedupFirst (l : List α) : (dedupFirst l).Nodup :=
  nodup_dedupFirstAux [] l

theorem dedupFirstAux_map {f : α → β} (hf : Function.Injective f)
    (seen l : List α) :
    dedupFirstAux (seen.map f) (l.map f) = (dedupFirstAux seen l).map f := by
  induction l generalizing seen with
  | nil => simp [dedupFirstAux]
  | cons x xs ih =>
    rw [List.map_cons, dedupFirstAux, dedupFirstAux]
    have hmem : f x ∈ seen.map f ↔ x ∈ seen := by
      constructor
      · intro h
        rcases List.mem_map.mp h with ⟨y, hy, hxy⟩
        rwa [← hf hxy]
      · exact fun h => List.mem_map.mpr ⟨x, h, rfl⟩
    by_cases hx : x ∈ seen
    · rw [if_pos (hmem.mpr hx), if_pos hx]
      exact ih seen
    · rw [if_neg (fun hc => hx (hmem.mp hc)), if_neg hx, List.map_cons]
      have := ih (x :: seen)
      rw [List.map_cons] at this
      rw [this]

theorem dedupFirst_map {f : α → β} (hf : Function.Injective f) (l : List α) :
    dedupFirst (l.map f) = (dedupFirst l).map f :=
  dedupFirstAux_map hf [] l

theorem countP_not_mem_split {l : List α} {y : α} {seen : List α}
    (hy : y ∉ seen) :
    l.countP (fun b => decide (b ∉ seen)) =
      l.countP (fun b => decide (b = y)) +
      l.countP (fun b => decide (b ∉ y :: seen)) := by
  induction l with
  | nil => simp
  | cons z zs ih =>
    simp only [List.countP_cons]
    by_cases hz : z = y
    · subst hz
      have h1 : (decide (z ∉ seen)) = true := by simpa using hy
      have h2 : (decide (z ∉ z :: seen)) = false := by simp
      have h3 : (decide (z = z)) = true := by simp
      rw [h1, h2, h3]
      simp only [eq_self_iff_true, Bool.false_eq_true, if_true, if_false]
      omega
    · have h2 : (decide (z ∉ y :: seen)) = decide (z ∉ seen) := by
        by_cases hzs : z ∈ seen
        · simp [List.mem_cons, hzs]
        · simp [List.mem_cons, hzs, hz]
      have h3 : (decide (z = y)) = false := by simpa using hz
      rw [h2, h3]
      simp only [eq_self_iff_true, Bool.false_eq_true, if_true, if_false]
      omega

theorem sum_count_dedupFirstAux (seen l : List α) :
    ((dedupFirstAux seen l).map
        (fun a => l.countP (fun b => decide (b = a)))).sum =
      l.countP (fun b => decide (b ∉ seen)) := by
  induction l generalizing seen with
  | nil => simp [dedupFirstAux]
  | cons y ys ih =>
    rw [dedupFirstAux]
    by_cases hy : y ∈ seen
    · rw [if_pos hy]
      have hcnt : ∀ a ∈ dedupFirstAux seen ys,
          (y :: ys).countP (fun b => decide (b = a)) =
            ys.countP (fun b => decide (b = a)) := by
        intro a ha
        have hne : (decide (y = a)) = false := by
          simp only [decide_eq_false_iff_not]
          intro hc
          exact not_mem_seen_of_mem_dedupFirstAux ha (hc ▸ hy)
        simp [List.countP_cons, hne]
      rw [List.map_congr_left hcnt, ih seen]
      have hdrop : (decide (y ∉ seen)) = false := by
        simp only [decide_eq_false_iff_not, not_not]
        exact hy
      simp only [List.countP_cons, hdrop, Bool.false_eq_true, if_false]
      omega
    · rw [if_neg hy, List.map_cons, List.sum_cons]
      have hcnt : ∀ a ∈ dedupFirstAux (y :: seen) ys,
          (y :: ys).countP (fun b => decide (b = a)) =
            ys.countP (fun b => decide (b = a)) := by
        intro a ha
        have hne : (decide (y = a)) = false := by
          simp only [decide_eq_false_iff_not]
          intro hc
          exact not_mem_seen_of_mem_dedupFirstAux ha
            (hc ▸ List.mem_cons_self _ _)
        simp [List.countP_cons, hne]
      rw [List.map_congr_left hcnt, ih (y :: seen)]
      have hsplit := @countP_not_mem_split α _ ys y seen hy
      have hkeep : (decide (y ∉ seen)) = true := by simpa using hy
      have hself : (decide (y = y)) = true := by simp
      simp only [List.countP_cons, hkeep, hself, hsplit]
      simp only [eq_self_iff_true, decide_True, Bool.false_eq_true, if_true, if_false]
      omega

theorem sum_count_dedupFirst (l : List α) :
    ((dedupFirst l).map
        (fun a => l.countP (fun b => decide (b = a)))).sum = l.length := by
  rw [dedupFirst, sum_count_dedupFirstAux]
  simp

theorem filterMap_dt_addNuCasos (df : List CaseRow) :
    (addNuCasos df).filterMap (·.dt) = df.filterMap (·.dt) := by
  rw [addNuCasos, List.filterMap_map]
  rfl

theorem deathCount_addNuCasos (df : List CaseRow) (d : Int) :
    deathCount (addNuCasos df) d = deathCount df d := by
  rw [deathCount, addNuCasos, List.filter_map, List.countP_map]
  rfl

theorem utiCount_addNuCasos (df : List CaseRow) (d : Int) :
    utiCount (addNuCasos df) d = utiCount df d := by
  rw [utiCount, addNuCasos, List.filter_map, List.countP_map]
  rfl

theorem vacCount_addNuCasos (df : List CaseRow) (d : Int) :
    vacCount (addNuCasos df) d = vacCount df d := by
  simp only [vacCount, filter_df_srag_for_vacc_label, filterMap_dt_addNuCasos]
  rw [addNuCasos, List.filter_map, List.filter_map, List.countP_map]
  rfl

/-- The pairing of a date with its case count, as drop_duplicates sees
it; injective because the first component is the date itself. -/
theorem pairUp_injective (df : List CaseRow) :
    Function.Injective (fun o : Option Int =>
      (o, o.map (fun d => df.countP (fun c => decide (c.dt = some d))))) := by
  intro a b h
  exact congrArg Prod.fst h

/-- Every row of df_daily_info is rowOf applied to one input date, and
the rows are produced in first-occurrence order of the distinct
(possibly null) dates. -/
theorem daily_shape (df : List CaseRow) :
    (generate_df_daily_info df).2 =
      (dedupFirst (df.map (·.dt))).map (rowOf df) := by
  show buildDaily (addNuCasos df) = _
  rw [buildDaily]
  have h1 : (addNuCasos df).map (fun r => (r.dt, r.nuCasos)) =
      (df.map (·.dt)).map (fun o =>
        (o, o.map (fun d => df.countP (fun c => decide (c.dt = some d))))) := by
    rw [addNuCasos, List.map_map, List.map_map]
    rfl
  rw [h1, dedupFirst_map (pairUp_injective df), List.map_map]
  refine List.map_congr_left ?_
  intro o _
  cases o with
  | none => rfl
  | some d =>
    show ({ dt := some d
            casos := some (df.countP (fun c => decide (c.dt = some d)))
            obitos := mergeCnt (deathCount (addNuCasos df) d)
            utis := mergeCnt (utiCount (addNuCasos df) d)
            vacinados := mergeCnt (vacCount (addNuCasos df) d) } : DailyRecord) =
          rowOf df (some d)
    rw [deathCount_addNuCasos, utiCount_addNuCasos, vacCount_addNuCasos]
    rfl

/-- Decomposition of a membership in df_daily_info. -/
theorem mem_daily (df : List CaseRow) (r : DailyRecord)
    (h : r ∈ (generate_df_daily_info df).2) :
    ∃ o, o ∈ df.map (fun c => c.dt) ∧ r = rowOf df o := by
  rw [daily_shape] at h
  rcases List.mem_map.mp h with ⟨o, ho, hr⟩
  exact ⟨o, mem_of_mem_dedupFirst ho, hr.symm⟩

/-- The date column of df_daily_info is the deduplicated date column of
the input. -/
theorem daily_dts (df : List CaseRow) :
    ((generate_df_daily_info df).2).map (·.dt) =
      dedupFirst (df.map (·.dt)) := by
  rw [daily_shape, List.map_map]
  have : ((·.dt) ∘ rowOf df) = id := rfl
  rw [this, List.map_id]

theorem datePred_and (P Q : Int → Bool) :
    (fun r : DailyRecord => datePred P r && datePred Q r) =
      datePred (fun d => P d && Q d) := by
  funext r
  cases hdt : r.dt <;> simp [datePred, hdt]

theorem datePred_ext {P Q : Int → Bool} (h : ∀ d, P d = Q d) :
    datePred P = datePred Q := by
  funext r
  cases hdt : r.dt <;> simp [datePred, hdt, h]

theorem filter_datePred_congr {df : List DailyRecord} {P Q : Int → Bool}
    (h : ∀ d ∈ df.filterMap (·.dt), P d = Q d) :
    df.filter (datePred P) = df.filter (datePred Q) := by
  refine List.filter_congr ?_
  intro r hr
  cases hdt : r.dt with
  | none => simp [datePred, hdt]
  | some d =>
    have hmem : d ∈ df.filterMap (·.dt) := List.mem_filterMap.mpr ⟨r, hr, hdt⟩
    simp [datePred, hdt, h d hmem]

theorem filter_datePred_fill (P : Int → Bool) (l : List DailyRecord) :
    (l.map fillCasosZero).filter (datePred P) =
      (l.filter (datePred P)).map fillCasosZero := by
  rw [List.filter_map]
  rfl

theorem total_prev_eq_spec (df : List DailyRecord) (p : Nat) :
    total_prev_cases df p = specPrevSum df p := by
  simp only [total_prev_cases, prev_period, case_window, specPrevSum]
  rw [List.filter_filter, datePred_and]
  refine congrArg (fun f : Int → Bool =>
    optSum ((df.filter (datePred f)).map (fun r => r.casos))) ?_
  funext d
  rw [Bool.decide_and, Bool.and_comm]

theorem total_curr_eq_spec (df : List DailyRecord) (p : Nat) :
    total_curr_cases df p = specCurrSum df p := by
  simp only [total_curr_cases, curr_period, case_window, specCurrSum]
  rw [List.filter_filter, datePred_and]
  refine congrArg (fun l : List DailyRecord =>
    optSum (l.map (fun r => r.casos))) (filter_datePred_congr ?_)
  intro d hd
  have hle : d ≤ maxD (df.filterMap (·.dt)) := le_maxD hd
  rw [← Bool.decide_and, decide_eq_decide]
  omega

theorem winSum_eq_spec (df : List DailyRecord) (sel : DailyRecord → Option Nat)
    (p : Nat) :
    optSum ((period_window df p).map sel) = specWinSum df sel p := by
  simp only [period_window, specWinSum]
  refine congrArg (fun l : List DailyRecord =>
    optSum (l.map sel)) (filter_datePred_congr ?_)
  intro d hd
  have hle : d ≤ maxD (df.filterMap (·.dt)) := le_maxD hd
  rw [decide_eq_decide]
  constructor
  · intro h
    exact ⟨h, hle⟩
  · intro h
    exact h.1

theorem optSum_map_some_getD (l : List (Option Nat)) :
    optSum (l.map (fun o => some (o.getD 0))) = optSum l := by
  rw [optSum, List.filterMap_map]
  have : (id ∘ fun o : Option Nat => some (o.getD 0)) =
      (some ∘ fun o : Option Nat => o.getD 0) := rfl
  rw [this, List.filterMap_eq_map, optSum_eq_sum_getD]

theorem calc_rate_fill (df : List DailyRecord)
    (numSel denomSel : DailyRecord → Option Nat) (p : Nat) :
    calc_rate_by_period df (fun r => some ((numSel r).getD 0))
      (fun r => some ((denomSel r).getD 0)) p =
    calc_rate_by_period df numSel denomSel p := by
  simp only [calc_rate_by_period]
  have hn : (period_window df p).map (fun r => some ((numSel r).getD 0)) =
      ((period_window df p).map numSel).map (fun o => some (o.getD 0)) := by
    rw [List.map_map]
    rfl
  have hd : (period_window df p).map (fun r => some ((denomSel r).getD 0)) =
      ((period_window df p).map denomSel).map (fun o => some (o.getD 0)) := by
    rw [List.map_map]
    rfl
  rw [hn, hd, optSum_map_some_getD, optSum_map_some_getD]

theorem filterMap_dt_fill (df : List DailyRecord) :
    (df.map fillCasosZero).filterMap (·.dt) = df.filterMap (·.dt) := by
  rw [List.filterMap_map]
  rfl

theorem total_prev_fill (df : List DailyRecord) (p : Nat) :
    total_prev_cases (df.map fillCasosZero) p = total_prev_cases df p := by
  simp only [total_prev_cases, prev_period, case_window, filterMap_dt_fill]
  rw [filter_datePred_fill, filter_datePred_fill, List.map_map]
  have h1 : ((fun r : DailyRecord => r.casos) ∘ fillCasosZero) =
      ((fun o : Option Nat => some (o.getD 0)) ∘
        fun r : DailyRecord => r.casos) := rfl
  rw [h1, ← List.map_map, optSum_map_some_getD]

theorem total_curr_fill (df : List DailyRecord) (p : Nat) :
    total_curr_cases (df.map fillCasosZero) p = total_curr_cases df p := by
  simp only [total_curr_cases, curr_period, case_window, filterMap_dt_fill]
  rw [filter_datePred_fill, filter_datePred_fill, List.map_map]
  have h1 : ((fun r : DailyRecord => r.casos) ∘ fillCasosZero) =
      ((fun o : Option Nat => some (o.getD 0)) ∘
        fun r : DailyRecord => r.casos) := rfl
  rw [h1, ← List.map_map, optSum_map_some_getD]

theorem addNuCasos_idem (df : List CaseRow) :
    addNuCasos (addNuCasos df) = addNuCasos df := by
  have hc : ∀ d : Int,
      (addNuCasos df).countP (fun c => decide (c.dt = some d)) =
        df.countP (fun c => decide (c.dt = some d)) := by
    intro d
    rw [addNuCasos, List.countP_map]
    rfl
  conv_lhs => rw [addNuCasos]
  simp only [hc]
  conv_lhs => rw [addNuCasos, List.map_map]
  conv_rhs => rw [addNuCasos]
  refine List.map_congr_left ?_
  intro c _
  rfl

theorem mergeCnt_ne_some_zero (c : Nat) : mergeCnt c ≠ some 0 := by
  cases c with
  | zero => simp [mergeCnt]
  | succ k => simp [mergeCnt]

end Lemmas

/-! Claim theorems. -/

/-- C1: the vaccination classifier is a total, deterministic function:
every input triple yields exactly the label 1 (vaccinated) or 0
(not-vaccinated), never an unknown label; under classification influenza
(1) the result is 1 iff the flu code is yes (1); else under covid-19 (5)
iff the covid code is yes; for every other classification (null
included) iff both codes are yes, every other combination (unknown and
ignored codes included) yielding 0. -/
theorem c1_classify_row_total_and_branchwise :
    ∀ classiFin vacina vacinaCov : Option Nat,
      (classify_row classiFin vacina vacinaCov = 1 ∨
        classify_row classiFin vacina vacinaCov = 0) ∧
      (classiFin = some 1 →
        (classify_row classiFin vacina vacinaCov = 1 ↔ vacina = some 1)) ∧
      (classiFin ≠ some 1 → classiFin = some 5 →
        (classify_row classiFin vacina vacinaCov = 1 ↔ vacinaCov = some 1)) ∧
      (classiFin ≠ some 1 → classiFin ≠ some 5 →
        (classify_row classiFin vacina vacinaCov = 1 ↔
          (vacina = some 1 ∧ vacinaCov = some 1))) := by
  intro c f v
  by_cases h1 : c = some 1 <;> by_cases h5 : c = some 5 <;>
    by_cases hf : f = some 1 <;> by_cases hv : v = some 1 <;>
    simp [classify_row, h1, h5, hf, hv]

/-- Witness for C1: a covid-19 case with unknown flu code and covid code
yes is classified vaccinated. -/
theorem c1_classify_row_witness :
    classify_row (some 5) (some 9) (some 1) = 1 := by
  have h := (c1_classify_row_total_and_branchwise
    (some 5) (some 9) (some 1)).2.2.1 (by decide) rfl
  exact h.mpr rfl

/-- C2: whenever the previous-period case sum of the
2*period_days-day window is positive, the period-over-period variation
equals (current sum - previous sum) / previous sum * 100 rounded to two
decimals, the periods being the first and last period_days days of the
window ending at the maximum date. -/
theorem c2_case_variation_formula :
    ∀ (df : List DailyRecord) (p : Nat), 0 < specPrevSum df p →
      calc_case_var_rate_by_period df p =
        PyFloat.val (roundTo2
          (((specCurrSum df p : ℚ) - (specPrevSum df p : ℚ)) /
            (specPrevSum df p : ℚ) * 100)) := by
  intro df p hpos
  rw [calc_case_var_rate_by_period, total_prev_eq_spec, total_curr_eq_spec]
  have hne : ((specPrevSum df p : ℤ)) ≠ 0 :=
    Int.natCast_ne_zero.mpr (Nat.pos_iff_ne_zero.mp hpos)
  rw [npDivInt, if_neg hne]
  show PyFloat.val (roundTo2
      ((((specCurrSum df p : ℤ) - (specPrevSum df p : ℤ) : ℤ) : ℚ) /
        ((specPrevSum df p : ℤ) : ℚ) * 100)) = _
  congr 2
  push_cast
  ring

/-- Witness for C2: the concrete 14-day spec scenario with period 7
gives exactly 100.00. -/
theorem c2_case_variation_witness :
    calc_case_var_rate_by_period exC2Daily 7 = PyFloat.val 100 := by
  have h := c2_case_variation_formula exC2Daily 7 (by decide)
  rw [h]
  have h1 : specPrevSum exC2Daily 7 = 70 := by decide
  have h2 : specCurrSum exC2Daily 7 = 140 := by decide
  rw [h1, h2]
  norm_num [roundTo2, roundHalfEven]

/-- C3: the ratio-based rate over the trailing period_days-day window
returns None exactly when the window sum of the denominator column is
zero (so the undefined marker is distinguishable from a 0.0 value and no
exception is involved), and otherwise returns numerator sum /
denominator sum * 100 rounded to two decimals. -/
theorem c3_ratio_rate_undefined_marker :
    ∀ (df : List DailyRecord) (numSel denomSel : DailyRecord → Option Nat)
      (p : Nat),
      (calc_rate_by_period df numSel denomSel p = none ↔
        specWinSum df denomSel p = 0) ∧
      (specWinSum df denomSel p ≠ 0 →
        calc_rate_by_period df numSel denomSel p =
          some (roundTo2 ((specWinSum df numSel p : ℚ) /
            (specWinSum df denomSel p : ℚ) * 100))) := by
  intro df numSel denomSel p
  simp only [calc_rate_by_period, winSum_eq_spec]
  constructor
  · by_cases h : specWinSum df denomSel p = 0 <;> simp [h]
  · intro h
    rw [if_neg h]

/-- Witness for C3: 5 deaths over 100 cases in a 1-day window is 5.00. -/
theorem c3_ratio_rate_witness :
    calc_rate_by_period exC3Daily (fun r => r.obitos) (fun r => r.casos) 1 =
      some 5 := by
  have h := (c3_ratio_rate_undefined_marker exC3Daily
    (fun r => r.obitos) (fun r => r.casos) 1).2 (by decide)
  rw [h]
  have h1 : specWinSum exC3Daily (fun r => r.obitos) 1 = 5 := by decide
  have h2 : specWinSum exC3Daily (fun r => r.casos) 1 = 100 := by decide
  rw [h1, h2]
  norm_num [roundTo2, roundHalfEven]

/-- C4 (code bug): the flag of create_charts.py lines 109-110 compares
the month and year of the last resample("ME") bucket label with the
month and year of the max date, which are always equal, so the last
monthly bucket is flagged for every non-empty table; in particular it is
flagged on 2021-01-31 although that date is the last calendar day of its
month, where the claim requires it unflagged. -/
theorem c4_month_flag_code_bug :
    lastBucketMarked [⟨2021, 1, 31⟩] = true ∧
    isLastDayOfMonth ⟨2021, 1, 31⟩ = true ∧
    (∀ (d : Date) (ds : List Date), lastBucketMarked (d :: ds) = true) := by
  refine ⟨by decide, by decide, ?_⟩
  intro d ds
  rw [lastBucketMarked]
  cases hmax : maxDate (d :: ds) with
  | none => simp [maxDate] at hmax
  | some ld => simp [monthEnd]

/-- C5 (corrected): on an empty daily table neither windowed-rate
operation raises a dedicated empty-input error; the period variation
computes 0/0 under numpy scalar semantics and returns nan, and the
ratio rate takes its zero-denominator branch and returns None. -/
theorem c5_empty_input_behavior :
    ∀ (p : Nat) (numSel denomSel : DailyRecord → Option Nat),
      calc_case_var_rate_by_period [] p = PyFloat.nan ∧
      calc_rate_by_period [] numSel denomSel p = none := by
  intro p numSel denomSel
  exact ⟨rfl, rfl⟩

/-- Counterexample for C5 as stated: on the empty table both operations
return values (nan and None respectively) instead of failing with a
dedicated error. -/
theorem c5_empty_input_counterexample :
    calc_case_var_rate_by_period [] 7 = PyFloat.nan ∧
    calc_rate_by_period [] (fun r => r.obitos) (fun r => r.casos) 7 =
      none := by
  exact ⟨rfl, rfl⟩

/-- C6: on a non-empty daily table whose previous-period case sum is
zero, the period variation returns the signed-infinity sentinel (when
the current period has cases) or nan (when it does not); it never
raises an arithmetic exception. -/
theorem c6_zero_previous_period_no_exception :
    ∀ (df : List DailyRecord) (p : Nat), df ≠ [] → specPrevSum df p = 0 →
      calc_case_var_rate_by_period df p = PyFloat.posInf ∨
      calc_case_var_rate_by_period df p = PyFloat.nan := by
  intro df p hne hzero
  have h0 : total_prev_cases df p = 0 := by
    rw [total_prev_eq_spec]
    exact hzero
  rw [calc_case_var_rate_by_period, h0]
  rcases Nat.eq_zero_or_pos (total_curr_cases df p) with hc | hc
  · right
    rw [hc]
    rfl
  · left
    simp only [Nat.cast_zero, sub_zero]
    rw [npDivInt, if_pos rfl, if_pos (by exact_mod_cast hc)]
    rfl

/-- Witness for C6: a table holding only the current 7 days, whose
previous period is empty, yields the infinity sentinel. -/
theorem c6_zero_previous_period_witness :
    exC6Daily ≠ [] ∧ specPrevSum exC6Daily 7 = 0 ∧
      (calc_case_var_rate_by_period exC6Daily 7 = PyFloat.posInf ∨
        calc_case_var_rate_by_period exC6Daily 7 = PyFloat.nan) :=
  ⟨by decide, by decide,
    c6_zero_previous_period_no_exception exC6Daily 7 (by decide) (by decide)⟩

/-- C7 (corrected): null-date records are excluded from every per-date
count and the aggregation does not crash, but the daily table is not
free of null dates: every row is either the all-null row produced by the
null-date records or a row of a date present in the input carrying that
date's case count. -/
theorem c7_null_date_rows :
    ∀ (df : List CaseRow) (r : DailyRecord),
      r ∈ (generate_df_daily_info df).2 →
      (r.dt = none →
        r = { dt := none, casos := none, obitos := none, utis := none,
              vacinados := none }) ∧
      (∀ d : Int, r.dt = some d →
        some d ∈ df.map (fun c => c.dt) ∧
        r.casos = some (df.countP (fun c => decide (c.dt = some d)))) := by
  intro df r hr
  rcases mem_daily df r hr with ⟨o, ho, rfl⟩
  constructor
  · intro hnone
    have ho2 : o = none := hnone
    subst ho2
    rfl
  · intro d hd
    have ho2 : o = some d := hd
    subst ho2
    exact ⟨ho, rfl⟩

/-- Counterexample for C7 as stated: a table with one null-date record
produces a daily table containing a row whose date is null. -/
theorem c7_null_date_counterexample :
    (generate_df_daily_info exC7Cases).2 =
      [{ dt := none, casos := none, obitos := none, utis := none,
         vacinados := none },
       { dt := some 10, casos := some 1, obitos := none, utis := none,
         vacinados := none }] ∧
    ((generate_df_daily_info exC7Cases).2).countP
      (fun r => decide (r.dt = none)) = 1 := by
  exact ⟨by decide, by decide⟩

/-- Witness for C7: the well-formed date of the mixed table appears in
the output with its case count. -/
theorem c7_null_date_rows_witness :
    some (10 : Int) ∈ exC7Cases.map (fun c => c.dt) ∧
    ({ dt := some 10, casos := some 1, obitos := none, utis := none,
       vacinados := none } : DailyRecord).casos =
      some (exC7Cases.countP (fun c => decide (c.dt = some 10))) :=
  (c7_null_date_rows exC7Cases
    { dt := some 10, casos := some 1, obitos := none, utis := none,
      vacinados := none } (by decide)).2 10 rfl

/-- C8: for a non-empty table of records with non-null dates, the daily
aggregation conserves cases: the case counts of the daily table sum to
the number of input records, and the daily table has exactly one row per
distinct notification date. -/
theorem c8_case_conservation :
    ∀ df : List CaseRow, df ≠ [] → (∀ c ∈ df, c.dt ≠ none) →
      (((generate_df_daily_info df).2).map
          (fun r => (r.casos).getD 0)).sum = df.length ∧
      ((generate_df_daily_info df).2).map (fun r => r.dt) =
        dedupFirst (df.map (fun c => c.dt)) ∧
      (((generate_df_daily_info df).2).map (fun r => r.dt)).Nodup := by
  intro df hne hnn
  refine ⟨?_, daily_dts df, ?_⟩
  · rw [daily_shape, List.map_map]
    have hpt : ∀ o ∈ dedupFirst (df.map (fun c => c.dt)),
        ((fun r : DailyRecord => (r.casos).getD 0) ∘ rowOf df) o =
          (df.map (fun c => c.dt)).countP (fun b => decide (b = o)) := by
      intro o ho
      have hmem := mem_of_mem_dedupFirst ho
      rcases List.mem_map.mp hmem with ⟨c, hc, hco⟩
      cases o with
      | none => exact absurd hco (hnn c hc)
      | some d =>
        show (some (df.countP (fun c2 => decide (c2.dt = some d)))).getD 0 = _
        rw [List.countP_map]
        rfl
    rw [List.map_congr_left hpt, sum_count_dedupFirst, List.length_map]
  · rw [daily_dts]
    exact nodup_dedupFirst _

/-- Witness for C8: three records over two distinct dates sum to three
daily cases in two nodup rows. -/
theorem c8_case_conservation_witness :
    (((generate_df_daily_info exC8Cases).2).map
        (fun r => (r.casos).getD 0)).sum = exC8Cases.length ∧
    ((generate_df_daily_info exC8Cases).2).map (fun r => r.dt) =
      dedupFirst (exC8Cases.map (fun c => c.dt)) ∧
    (((generate_df_daily_info exC8Cases).2).map (fun r => r.dt)).Nodup :=
  c8_case_conservation exC8Cases (by decide) (by decide)

/-- C9 (corrected): the aggregation is deterministic and idempotent in
both components, a second call on the already-mutated table returning
an identical (table, daily table) pair, but it is not mutation-free:
it writes the NU_CASOS column onto its input (see the
counterexample). -/
theorem c9_idempotent_after_mutation :
    ∀ df : List CaseRow,
      generate_df_daily_info ((generate_df_daily_info df).1) =
        generate_df_daily_info df := by
  intro df
  show (addNuCasos (addNuCasos df), buildDaily (addNuCasos (addNuCasos df))) =
    (addNuCasos df, buildDaily (addNuCasos df))
  rw [addNuCasos_idem]

/-- Counterexample for C9 as stated: the input table after the call
differs from the input table before it (the NU_CASOS column has been
written in place). -/
theorem c9_input_mutation_counterexample :
    (generate_df_daily_info exC9Cases).1 ≠ exC9Cases := by decide

/-- C10: a date with no death, no ICU admission or no vaccinated case
carries a null (never the number 0) in the matching column of the daily
table, and both windowed-rate operations sum missing values as exactly
zero: filling every missing value with 0 changes no computed rate. -/
theorem c10_missing_subcounts :
    (∀ (df : List CaseRow) (r : DailyRecord) (d : Int),
        r ∈ (generate_df_daily_info df).2 → r.dt = some d →
        (deathCount df d = 0 → r.obitos = none) ∧ r.obitos ≠ some 0 ∧
        (utiCount df d = 0 → r.utis = none) ∧ r.utis ≠ some 0 ∧
        (vacCount df d = 0 → r.vacinados = none) ∧ r.vacinados ≠ some 0) ∧
    (∀ (df : List DailyRecord) (numSel denomSel : DailyRecord → Option Nat)
        (p : Nat),
        calc_rate_by_period df (fun r => some ((numSel r).getD 0))
          (fun r => some ((denomSel r).getD 0)) p =
        calc_rate_by_period df numSel denomSel p) ∧
    (∀ (df : List DailyRecord) (p : Nat),
        calc_case_var_rate_by_period (df.map fillCasosZero) p =
          calc_case_var_rate_by_period df p) := by
  refine ⟨?_, calc_rate_fill, ?_⟩
  · intro df r d hr hd
    rcases mem_daily df r hr with ⟨o, ho, rfl⟩
    have ho2 : o = some d := hd
    subst ho2
    refine ⟨fun h => ?_, ?_, fun h => ?_, ?_, fun h => ?_, ?_⟩
    · show mergeCnt (deathCount df d) = none
      rw [h]
      rfl
    · exact mergeCnt_ne_some_zero _
    · show mergeCnt (utiCount df d) = none
      rw [h]
      rfl
    · exact mergeCnt_ne_some_zero _
    · show mergeCnt (vacCount df d) = none
      rw [h]
      rfl
    · exact mergeCnt_ne_some_zero _
  · intro df p
    rw [calc_case_var_rate_by_period, calc_case_var_rate_by_period,
      total_prev_fill, total_curr_fill]

/-- Witness for C10: the single-date table with no death, ICU or
vaccinated case gets null in all three columns. -/
theorem c10_missing_subcounts_witness :
    ({ dt := some 0, casos := some 1, obitos := none, utis := none,
       vacinados := none } : DailyRecord).obitos = none ∧
    ({ dt := some 0, casos := some 1, obitos := none, utis := none,
       vacinados := none } : DailyRecord).utis = none ∧
    ({ dt := some 0, casos := some 1, obitos := none, utis := none,
       vacinados := none } : DailyRecord).vacinados = none := by
  have h := c10_missing_subcounts.1 exC10Cases
    { dt := some 0, casos := some 1, obitos := none, utis := none,
      vacinados := none } 0 (by decide) rfl
  exact ⟨h.1 (by decide), h.2.2.1 (by decide), h.2.2.2.2.1 (by decide)⟩

end Srag

